import Mathlib

/-!
Verification of the raktar publish ingestion pipeline.

This file gives a shallow embedding of the publish pipeline of
`src/application/api/publish.rs` and the error taxonomy of
`src/application/error.rs`, and settles the specification's claims
about them as Lean theorems.

Bytes are modelled as natural numbers taken modulo 256 where the code
treats them as `u8`; 32-bit words are naturals with arithmetic modulo
2^32.  External collaborators (the DynamoDB conditional put, the blob
storage backend, the serde_json metadata parser, and the sha2 crate's
SHA-256) are not part of `src/`; they are modelled from the spec and
from their documented contracts, as noted on each definition.
-/

namespace Raktar

/-! ## SHA-256 (Checksum Engine)

Modelled from the spec: the publish handler computes
`Sha256::digest(&crate_bytes).encode_hex()` using the external `sha2`
and `hex` crates.  The definitions below are the FIPS 180-4 SHA-256
algorithm over byte lists, with the digest rendered as lowercase hex,
which is the documented behaviour of those crates. -/

def w32 : Nat := 4294967296

def add32 (a b : Nat) : Nat := (a + b) % w32

def rotr32 (n x : Nat) : Nat := (x >>> n) + ((x % (2 ^ n)) * 2 ^ (32 - n))

def xnot32 (x : Nat) : Nat := (w32 - 1) - (x % w32)

def ch32 (x y z : Nat) : Nat := (x &&& y) ^^^ ((xnot32 x) &&& z)

def maj32 (x y z : Nat) : Nat := ((x &&& y) ^^^ (x &&& z)) ^^^ (y &&& z)

def bigSigma0 (x : Nat) : Nat := (rotr32 2 x ^^^ rotr32 13 x) ^^^ rotr32 22 x

def bigSigma1 (x : Nat) : Nat := (rotr32 6 x ^^^ rotr32 11 x) ^^^ rotr32 25 x

def smallSigma0 (x : Nat) : Nat := (rotr32 7 x ^^^ rotr32 18 x) ^^^ (x >>> 3)

def smallSigma1 (x : Nat) : Nat := (rotr32 17 x ^^^ rotr32 19 x) ^^^ (x >>> 10)

def sha256K : List Nat :=
  [1116352408, 1899447441, 3049323471, 3921009573, 961987163, 1508970993,
   2453635748, 2870763221, 3624381080, 310598401, 607225278, 1426881987,
   1925078388, 2162078206, 2614888103, 3248222580, 3835390401, 4022224774,
   264347078, 604807628, 770255983, 1249150122, 1555081692, 1996064986,
   2554220882, 2821834349, 2952996808, 3210313671, 3336571891, 3584528711,
   113926993, 338241895, 666307205, 773529912, 1294757372, 1396182291,
   1695183700, 1986661051, 2177026350, 2456956037, 2730485921, 2820302411,
   3259730800, 3345764771, 3516065817, 3600352804, 4094571909, 275423344,
   430227734, 506948616, 659060556, 883997877, 958139571, 1322822218,
   1537002063, 1747873779, 1955562222, 2024104815, 2227730452, 2361852424,
   2428436474, 2756734187, 3204031479, 3329325298]

structure Hash8 where
  a : Nat
  b : Nat
  c : Nat
  d : Nat
  e : Nat
  f : Nat
  g : Nat
  h : Nat
deriving DecidableEq, Repr

def sha256H0 : Hash8 :=
  ⟨1779033703, 3144134277, 1013904242, 2773480762, 1359893119, 2600822924, 528734635, 1541459225⟩

def extendSchedule : Nat → Array Nat → Array Nat
  | 0, ws => ws
  | n + 1, ws =>
      let i := ws.size
      let t := add32 (add32 (ws[i - 16]!) (smallSigma0 (ws[i - 15]!)))
                     (add32 (ws[i - 7]!) (smallSigma1 (ws[i - 2]!)))
      extendSchedule n (ws.push t)

def roundStep (st : Hash8) (kw : Nat) : Hash8 :=
  let t1 := add32 st.h (add32 (bigSigma1 st.e) (add32 (ch32 st.e st.f st.g) kw))
  let t2 := add32 (bigSigma0 st.a) (maj32 st.a st.b st.c)
  ⟨add32 t1 t2, st.a, st.b, st.c, add32 st.d t1, st.e, st.f, st.g⟩

def compressChunk (H : Hash8) (chunkWords : List Nat) : Hash8 :=
  let ws := extendSchedule 48 (Array.mk chunkWords)
  let kws := List.zipWith add32 sha256K ws.toList
  let st := kws.foldl roundStep H
  ⟨add32 H.a st.a, add32 H.b st.b, add32 H.c st.c, add32 H.d st.d,
   add32 H.e st.e, add32 H.f st.f, add32 H.g st.g, add32 H.h st.h⟩

def toBE64 (n : Nat) : List Nat :=
  [n / 2 ^ 56 % 256, n / 2 ^ 48 % 256, n / 2 ^ 40 % 256, n / 2 ^ 32 % 256,
   n / 2 ^ 24 % 256, n / 2 ^ 16 % 256, n / 2 ^ 8 % 256, n % 256]

def padMessage (msg : List Nat) : List Nat :=
  let L := msg.length
  let k := (64 - ((L + 9) % 64)) % 64
  msg ++ [128] ++ List.replicate k 0 ++ toBE64 (8 * L)

def bytesToWords : List Nat → List Nat
  | b0 :: b1 :: b2 :: b3 :: rest =>
      ((b0 % 256) * 16777216 + (b1 % 256) * 65536 + (b2 % 256) * 256 + b3 % 256) :: bytesToWords rest
  | _ => []

def chunksAux : Nat → List Nat → List (List Nat)
  | 0, _ => []
  | _, [] => []
  | fuel + 1, ws => ws.take 16 :: chunksAux fuel (ws.drop 16)

def chunks16 (ws : List Nat) : List (List Nat) := chunksAux ws.length ws

def toBE4 (w : Nat) : List Nat := [w / 2 ^ 24 % 256, w / 2 ^ 16 % 256, w / 2 ^ 8 % 256, w % 256]

def hashToBytes (H : Hash8) : List Nat :=
  toBE4 H.a ++ toBE4 H.b ++ toBE4 H.c ++ toBE4 H.d ++ toBE4 H.e ++ toBE4 H.f ++ toBE4 H.g ++ toBE4 H.h

def sha256 (msg : List Nat) : List Nat :=
  hashToBytes ((chunks16 (bytesToWords (padMessage msg))).foldl compressChunk sha256H0)

def hexDigitChar (n : Nat) : Char := if n < 10 then Char.ofNat (48 + n) else Char.ofNat (87 + n)

def byteToHexChars (b : Nat) : List Char := [hexDigitChar (b / 16), hexDigitChar (b % 16)]

def bytesToHex (bs : List Nat) : String := String.mk ((bs.map byteToHexChars).flatten)

/-- Model of `Sha256::digest(bytes).encode_hex()` in `publish.rs`: the SHA-256
digest of the byte list rendered as lowercase hexadecimal. -/
def sha256Hex (msg : List Nat) : String := bytesToHex (sha256 msg)

/-! ## Data model -/

/-- Modelled from the spec: a parsed semantic version (the `semver::Version`
used by `Metadata` and `PackageInfo`, whose sources are not under `src/`).
Only the numeric triple is modelled; this is all the pipeline inspects. -/
structure Version where
  major : Nat
  minor : Nat
  patch : Nat
deriving DecidableEq, Repr

/-- The `to_string()` rendering of a version, used as the sort key. -/
def Version.render (v : Version) : String :=
  Nat.repr v.major ++ "." ++ Nat.repr v.minor ++ "." ++ Nat.repr v.patch

/-- Modelled from the spec: `RawMetadata` (`src/models/metadata.rs` is not
under `src/`): the as-submitted package description with its required
fields `name` and `vers`; the open set of other descriptive fields is not
inspected by the pipeline and is elided. -/
structure Metadata where
  name : String
  vers : Version
deriving DecidableEq, Repr

/-- Modelled from the spec: `PackageInfo` (`src/models/index.rs` is not
under `src/`): the canonical persisted package-version record with the
checksum attached. -/
structure PackageInfo where
  name : String
  vers : Version
  checksum : String
deriving DecidableEq, Repr

/-- Constructor `PackageInfo::from_metadata`: copies name and version from the
metadata and attaches the computed checksum. -/
def PackageInfo.from_metadata (m : Metadata) (checksum : String) : PackageInfo :=
  { name := m.name, vers := m.vers, checksum := checksum }

/-- The registration store's contents: items keyed by partition key
(package name) and sort key (rendered version). -/
abbrev RegStore := List (String × String × PackageInfo)

/-- The blob store's contents: archive bytes keyed by (name, version). -/
abbrev BlobStore := List ((String × String) × List Nat)

def regKeyOccupied (store : RegStore) (pk sk : String) : Bool :=
  store.any (fun e => e.1 == pk && e.2.1 == sk)

/-- Modelled from the spec: DynamoDB `put_item` with
`condition_expression("attribute_not_exists(sk)")`, the collaborator
contract "atomic conditional-put-if-absent keyed by (name, version)".
A single atomic operation: it inserts exactly when no item with the same
(pk, sk) key exists and otherwise rejects with the driver's
conditional-check failure, leaving the store unchanged.  `dupMsg` is the
driver's error text for that rejection. -/
def putItemIfAbsent (dupMsg : String) (store : RegStore) (info : PackageInfo) :
    Except String RegStore :=
  let pk := info.name
  let sk := info.vers.render
  if regKeyOccupied store pk sk then Except.error dupMsg
  else Except.ok ((pk, sk, info) :: store)

/-- Function `store_package_info` of `publish.rs`: one conditional `put_item` call
on the DynamoDB client with `item("pk", name)`, `item("sk", vers)` and
`condition_expression("attribute_not_exists(sk)")`.  `regInfra` injects a
transient infrastructure failure of the `send()` (the store unreachable),
in which case the driver reports that error and no write happens; the
`to_item` serialization is modelled as always succeeding (`PackageInfo`
is a plain record). -/
def store_package_info (regInfra : Option String) (dupMsg : String)
    (store : RegStore) (info : PackageInfo) : Except String RegStore :=
  match regInfra with
  | some msg => Except.error msg
  | none => putItemIfAbsent dupMsg store info

/-- Modelled from the spec: the blob store collaborator
(`storeArchive(name, version, bytes)`), consumed through the
`CrateStorage` trait as `store_crate`.  `blobFail` injects a failure of
the backend; on success the bytes are persisted under (name, version). -/
def store_crate (blobFail : Option String) (bs : BlobStore)
    (name : String) (vers : Version) (bytes : List Nat) : Except String BlobStore :=
  match blobFail with
  | some m => Except.error m
  | none => Except.ok (((name, vers.render), bytes) :: bs)

/-! ## Frame reading -/

/-- Model of `cursor.read_u32::<LittleEndian>()`: reads a 4-byte little-endian
word, failing when fewer than 4 bytes remain. -/
def readU32LE : List Nat → Option (Nat × List Nat)
  | b0 :: b1 :: b2 :: b3 :: rest =>
      some (b0 % 256 + 256 * (b1 % 256) + 65536 * (b2 % 256) + 16777216 * (b3 % 256), rest)
  | _ => none

/-- Model of `cursor.read_exact` into a buffer of length `n`: yields the next `n`
bytes and the remainder, failing when fewer than `n` bytes remain. -/
def readExact (n : Nat) (bs : List Nat) : Option (List Nat × List Nat) :=
  if n ≤ bs.length then some (bs.take n, bs.drop n) else none

/-- The pure frame decode of §4.1: length-prefixed metadata bytes then
length-prefixed archive bytes; trailing bytes are ignored.  `none` holds
exactly when fewer than 4 bytes remain at a length field or a declared
length exceeds the remaining bytes. -/
def decodeFrame (body : List Nat) : Option (List Nat × List Nat) :=
  match readU32LE body with
  | none => none
  | some (l1, r1) =>
    match readExact l1 r1 with
    | none => none
    | some (meta, r2) =>
      match readU32LE r2 with
      | none => none
      | some (l2, r3) =>
        match readExact l2 r3 with
        | none => none
        | some (cr, _) => some (meta, cr)

/-! ## Responses, outcomes, events -/

structure PublishWarning where
  invalid_categories : List String
  invalid_badges : List String
  other : List String
deriving DecidableEq, Repr

inductive PublishResponse where
  | PublishSuccess (warnings : List PublishWarning)
  | PublishFailure (detail : String)
deriving DecidableEq, Repr

/-- The result of running the handler: either a `(status, response)`
pair, or a crash — the Rust process panicking via `unwrap`/`expect`. -/
inductive Outcome (α : Type) where
  | ok : α → Outcome α
  | crash : String → Outcome α
deriving DecidableEq, Repr

/-- Store interactions of one request, in order: the registration write
(with its success flag) and the blob write (with its arguments). -/
inductive Event where
  | regWrite (success : Bool)
  | blobWrite (name : String) (vers : Version) (bytes : List Nat)
deriving DecidableEq, Repr

structure SystemState where
  reg : RegStore
  blob : BlobStore
deriving DecidableEq, Repr

structure RunResult where
  outcome : Outcome (Nat × PublishResponse)
  state : SystemState
  trace : List Event
deriving DecidableEq, Repr

def unwrapMsg : String := "called Option::unwrap on a None value"

def expectCrateMsg : String := "to be able to store crate"

/-! ## The publish handler -/

/-- The body of `publish_crate` from line 52 of `publish.rs` on, once the
frame has been read and the metadata parsed: compute the checksum, build
the record via `PackageInfo::from_metadata`, attempt the conditional
registration write (success gives `(200, PublishSuccess [])`, failure
gives `(400, PublishFailure <Display of the error>)`), then
unconditionally call `store_crate`, whose failure hits the
`.expect("to be able to store crate")` and crashes the process. -/
def publishCore (dupMsg : String) (regInfra blobFail : Option String)
    (st : SystemState) (metadata : Metadata) (crate_bytes : List Nat) : RunResult :=
  let vers := metadata.vers
  let crate_name := metadata.name
  let checksum := sha256Hex crate_bytes
  let package_info := PackageInfo.from_metadata metadata checksum
  let regResult := store_package_info regInfra dupMsg st.reg package_info
  let reg2 := match regResult with
    | Except.ok r => r
    | Except.error _ => st.reg
  let statusResponse : Nat × PublishResponse := match regResult with
    | Except.ok _ => (200, PublishResponse.PublishSuccess [])
    | Except.error err => (400, PublishResponse.PublishFailure err)
  let regOk := match regResult with
    | Except.ok _ => true
    | Except.error _ => false
  match store_crate blobFail st.blob crate_name vers crate_bytes with
  | Except.ok blob2 =>
      ⟨Outcome.ok statusResponse, ⟨reg2, blob2⟩,
       [Event.regWrite regOk, Event.blobWrite crate_name vers crate_bytes]⟩
  | Except.error _ =>
      ⟨Outcome.crash expectCrateMsg, ⟨reg2, st.blob⟩,
       [Event.regWrite regOk, Event.blobWrite crate_name vers crate_bytes]⟩

/-- Handler `publish_crate` of `publish.rs`.  Parameters standing for external
collaborators: `parseMeta` is the serde_json deserialization of the
metadata buffer into `Metadata` (not under `src/`; `none` models a parse
failure), `dupMsg` is the store driver's conditional-check failure text,
`regInfra` injects a registration-store infrastructure failure and
`blobFail` a blob-store failure.  Mirrors the source: read the metadata
length and bytes, parse the metadata, read the crate length and bytes —
each failure is `.unwrap()`ed, so it crashes the process with no store
touched — then continue with `publishCore` above. -/
def publish_crate (parseMeta : List Nat → Option Metadata)
    (dupMsg : String) (regInfra : Option String) (blobFail : Option String)
    (st : SystemState) (body : List Nat) : RunResult :=
  match readU32LE body with
  | none => ⟨Outcome.crash unwrapMsg, st, []⟩
  | some (metadata_length, r1) =>
    match readExact metadata_length r1 with
    | none => ⟨Outcome.crash unwrapMsg, st, []⟩
    | some (metadata_bytes, r2) =>
      match parseMeta metadata_bytes with
      | none => ⟨Outcome.crash unwrapMsg, st, []⟩
      | some metadata =>
        match readU32LE r2 with
        | none => ⟨Outcome.crash unwrapMsg, st, []⟩
        | some (crate_length, r3) =>
          match readExact crate_length r3 with
          | none => ⟨Outcome.crash unwrapMsg, st, []⟩
          | some (crate_bytes, _) =>
            publishCore dupMsg regInfra blobFail st metadata crate_bytes

/-! ## Error taxonomy (`src/application/error.rs`) -/

inductive AppError where
  | NonExistentPackageInfo (name : String)
  | NonExistentCrateVersion (crate_name : String) (version : Version)
  | DuplicateCrateVersion (crate_name : String) (version : Version)
  | Anyhow (msg : String)
  | Other (msg : String)
deriving DecidableEq, Repr

/-- The `Display` impl derived by thiserror from the `#[error(...)]`
attributes on `AppError`. -/
def AppError.toMessage : AppError → String
  | AppError.NonExistentPackageInfo n => "package info for " ++ n ++ " does not exist"
  | AppError.NonExistentCrateVersion c v =>
      "version " ++ v.render ++ " for " ++ c ++ " does not exist"
  | AppError.DuplicateCrateVersion c v =>
      "version " ++ v.render ++ " for " ++ c ++ " already exists"
  | AppError.Anyhow m => m
  | AppError.Other _ => "unexpected error"

/-- JSON values, as needed for the serde serializations in scope. -/
inductive Json where
  | str : String → Json
  | arr : List Json → Json
  | obj : List (String × Json) → Json

def PublishWarning.toJson (w : PublishWarning) : Json :=
  Json.obj [("invalid_categories", Json.arr (w.invalid_categories.map Json.str)),
            ("invalid_badges", Json.arr (w.invalid_badges.map Json.str)),
            ("other", Json.arr (w.other.map Json.str))]

/-- The serde serialization of the untagged `PublishResponse` enum. -/
def PublishResponse.toJson : PublishResponse → Json
  | PublishResponse.PublishSuccess ws =>
      Json.obj [("warnings", Json.arr (ws.map PublishWarning.toJson))]
  | PublishResponse.PublishFailure d => Json.obj [("detail", Json.str d)]

/-- Impl `IntoResponse for AppError`: the status code for each kind, and the
payload `{"errors": [{"detail": <Display of the error>}]}`. -/
def AppError.into_response (e : AppError) : Nat × Json :=
  let detail := e.toMessage
  let status_code := match e with
    | AppError.NonExistentPackageInfo _ => 404
    | AppError.NonExistentCrateVersion _ _ => 404
    | AppError.DuplicateCrateVersion _ _ => 400
    | AppError.Anyhow _ => 500
    | AppError.Other _ => 500
  (status_code, Json.obj [("errors", Json.arr [Json.obj [("detail", Json.str detail)]])])

/-- Impl `From<SdkError<E>> for AppError`: the SDK error's display text is
logged and wrapped as `Other` (whose own display is "unexpected error"). -/
def AppError.fromSdkError (msg : String) : AppError := AppError.Other msg

/-! ## Auxiliary notions for the statements -/

/-- Whether `needle` occurs as a contiguous subsequence of the character list. -/
def listHasSub (needle : List Char) : List Char → Bool
  | [] => needle.isEmpty
  | c :: rest => needle.isPrefixOf (c :: rest) || listHasSub needle rest

/-- Whether `sub` occurs as a substring of `hay`. -/
def strContains (hay sub : String) : Bool := listHasSub sub.toList hay.toList

/-- A sequential schedule of registration attempts against the store:
each attempt performs the conditional write, keeping the new store on
success; the second component counts the successes.  Because the
conditional write is one atomic store operation, every concurrent
execution of N publishers is equivalent to one such sequential order. -/
def runAttempts (dupMsg : String) (store : RegStore) : List PackageInfo → RegStore × Nat
  | [] => (store, 0)
  | i :: rest =>
    match store_package_info none dupMsg store i with
    | Except.ok s2 =>
        let r := runAttempts dupMsg s2 rest
        (r.1, r.2 + 1)
    | Except.error _ => runAttempts dupMsg store rest

/-- No two items of the registration store share the (pk, sk) key: for a
given name, each version appears at most once. -/
def noDupKeys (store : RegStore) : Prop :=
  store.Pairwise (fun x y => ¬(x.1 = y.1 ∧ x.2.1 = y.2.1))

def isHexDigit (c : Char) : Bool := ("0123456789abcdef".toList).contains c

/-- The digest format of §4.3: 64 characters, all lowercase hex. -/
def isLowerHexString (s : String) : Bool :=
  s.length == 64 && s.toList.all isHexDigit

/-! ## Concrete fixtures -/

/-- A metadata parser standing for serde_json on the scenario metadata
`{name: "demo", vers: "1.0.0"}`. -/
def demoParse : List Nat → Option Metadata := fun _ => some ⟨"demo", ⟨1, 0, 0⟩⟩

/-- A well-formed frame: metadata length 0, then archive length 3 and the
archive bytes "abc". -/
def demoBody : List Nat := [0, 0, 0, 0, 3, 0, 0, 0, 97, 98, 99]

/-- Modelled from the spec's external collaborator contract: the DynamoDB
driver's error text when the conditional put is rejected. -/
def condFailedMsg : String := "The conditional request failed"

def demoRecord : PackageInfo :=
  ⟨"demo", ⟨1, 0, 0⟩, "ba7816bf8f01cfea414140de5dae2223b00361a396177a9cb410ff61f20015ad"⟩

/-- A state whose registration store already holds ("demo", "1.0.0"). -/
def demoOccupied : SystemState := ⟨[("demo", "1.0.0", demoRecord)], []⟩

def demoEmpty : SystemState := ⟨[], []⟩

/-! ## Structural lemmas about the pipeline -/

def isRegWrite : Event → Bool
  | Event.regWrite _ => true
  | _ => false

lemma decodeFrame_some {body mb cb : List Nat} (h : decodeFrame body = some (mb, cb)) :
    ∃ l1 r1 r2 l2 r3 rest,
      readU32LE body = some (l1, r1) ∧ readExact l1 r1 = some (mb, r2) ∧
      readU32LE r2 = some (l2, r3) ∧ readExact l2 r3 = some (cb, rest) := by
  unfold decodeFrame at h
  split at h
  · cases h
  next l1 r1 h1 =>
    split at h
    · cases h
    next meta r2 h2 =>
      split at h
      · cases h
      next l2 r3 h3 =>
        split at h
        · cases h
        next cr rest h4 =>
          obtain ⟨rfl, rfl⟩ := Prod.mk.injEq .. ▸ Option.some.injEq .. ▸ h
          exact ⟨l1, r1, r2, l2, r3, rest, h1, h2, h3, h4⟩

lemma publish_decode_none (parse : List Nat → Option Metadata) (dupMsg : String)
    (regInfra blobFail : Option String) (st : SystemState) {body : List Nat}
    (h : decodeFrame body = none) :
    publish_crate parse dupMsg regInfra blobFail st body = ⟨Outcome.crash unwrapMsg, st, []⟩ := by
  unfold publish_crate
  cases h1 : readU32LE body with
  | none => rfl
  | some p1 =>
    obtain ⟨l1, r1⟩ := p1
    cases h2 : readExact l1 r1 with
    | none => simp [h2]
    | some p2 =>
      obtain ⟨mbts, r2⟩ := p2
      cases hp : parse mbts with
      | none => simp [h2, hp]
      | some m =>
        cases h3 : readU32LE r2 with
        | none => simp [h2, hp, h3]
        | some p3 =>
          obtain ⟨l2, r3⟩ := p3
          cases h4 : readExact l2 r3 with
          | none => simp [h2, hp, h3, h4]
          | some p4 =>
            obtain ⟨cbts, rest⟩ := p4
            simp [decodeFrame, h1, h2, h3, h4] at h

lemma publish_parse_none {parse : List Nat → Option Metadata} (dupMsg : String)
    (regInfra blobFail : Option String) (st : SystemState) {body mb cb : List Nat}
    (h : decodeFrame body = some (mb, cb)) (hp : parse mb = none) :
    publish_crate parse dupMsg regInfra blobFail st body = ⟨Outcome.crash unwrapMsg, st, []⟩ := by
  obtain ⟨l1, r1, r2, l2, r3, rest, h1, h2, h3, h4⟩ := decodeFrame_some h
  simp [publish_crate, h1, h2, h3, h4, hp]

lemma publish_decoded {parse : List Nat → Option Metadata} (dupMsg : String)
    (regInfra blobFail : Option String) (st : SystemState) {body mb cb : List Nat} {m : Metadata}
    (h : decodeFrame body = some (mb, cb)) (hp : parse mb = some m) :
    publish_crate parse dupMsg regInfra blobFail st body =
      publishCore dupMsg regInfra blobFail st m cb := by
  obtain ⟨l1, r1, r2, l2, r3, rest, h1, h2, h3, h4⟩ := decodeFrame_some h
  simp [publish_crate, h1, h2, h3, h4, hp]

lemma publishCore_regOk {dupMsg : String} {regInfra : Option String} {st : SystemState}
    {m : Metadata} {cb : List Nat} {reg2 : RegStore}
    (hr : store_package_info regInfra dupMsg st.reg
            (PackageInfo.from_metadata m (sha256Hex cb)) = Except.ok reg2) :
    publishCore dupMsg regInfra none st m cb =
      ⟨Outcome.ok (200, PublishResponse.PublishSuccess []),
       ⟨reg2, ((m.name, m.vers.render), cb) :: st.blob⟩,
       [Event.regWrite true, Event.blobWrite m.name m.vers cb]⟩ := by
  simp [publishCore, hr, store_crate]

lemma publishCore_regErr {dupMsg : String} {regInfra : Option String} {st : SystemState}
    {m : Metadata} {cb : List Nat} {msg : String}
    (hr : store_package_info regInfra dupMsg st.reg
            (PackageInfo.from_metadata m (sha256Hex cb)) = Except.error msg) :
    publishCore dupMsg regInfra none st m cb =
      ⟨Outcome.ok (400, PublishResponse.PublishFailure msg),
       ⟨st.reg, ((m.name, m.vers.render), cb) :: st.blob⟩,
       [Event.regWrite false, Event.blobWrite m.name m.vers cb]⟩ := by
  simp [publishCore, hr, store_crate]

lemma publishCore_blobFail_regOk {dupMsg : String} {regInfra : Option String} {st : SystemState}
    {m : Metadata} {cb : List Nat} {reg2 : RegStore} {bm : String}
    (hr : store_package_info regInfra dupMsg st.reg
            (PackageInfo.from_metadata m (sha256Hex cb)) = Except.ok reg2) :
    publishCore dupMsg regInfra (some bm) st m cb =
      ⟨Outcome.crash expectCrateMsg, ⟨reg2, st.blob⟩,
       [Event.regWrite true, Event.blobWrite m.name m.vers cb]⟩ := by
  simp [publishCore, hr, store_crate]

lemma publishCore_blobFail_regErr {dupMsg : String} {regInfra : Option String} {st : SystemState}
    {m : Metadata} {cb : List Nat} {msg : String} {bm : String}
    (hr : store_package_info regInfra dupMsg st.reg
            (PackageInfo.from_metadata m (sha256Hex cb)) = Except.error msg) :
    publishCore dupMsg regInfra (some bm) st m cb =
      ⟨Outcome.crash expectCrateMsg, ⟨st.reg, st.blob⟩,
       [Event.regWrite false, Event.blobWrite m.name m.vers cb]⟩ := by
  simp [publishCore, hr, store_crate]

lemma publish_run_shape (parse : List Nat → Option Metadata) (dupMsg : String)
    (regInfra blobFail : Option String) (st : SystemState) (body : List Nat) :
    ((publish_crate parse dupMsg regInfra blobFail st body).trace = [] ∨
      ∃ b n v cb2, (publish_crate parse dupMsg regInfra blobFail st body).trace =
        [Event.regWrite b, Event.blobWrite n v cb2]) ∧
    ((∃ msg, (publish_crate parse dupMsg regInfra blobFail st body).outcome = Outcome.crash msg) ∨
      (publish_crate parse dupMsg regInfra blobFail st body).outcome =
        Outcome.ok (200, PublishResponse.PublishSuccess []) ∨
      ∃ d, (publish_crate parse dupMsg regInfra blobFail st body).outcome =
        Outcome.ok (400, PublishResponse.PublishFailure d)) := by
  cases hdec : decodeFrame body with
  | none =>
    rw [publish_decode_none parse dupMsg regInfra blobFail st hdec]
    exact ⟨Or.inl rfl, Or.inl ⟨unwrapMsg, rfl⟩⟩
  | some p =>
    obtain ⟨mb, cb⟩ := p
    cases hp : parse mb with
    | none =>
      rw [publish_parse_none dupMsg regInfra blobFail st hdec hp]
      exact ⟨Or.inl rfl, Or.inl ⟨unwrapMsg, rfl⟩⟩
    | some m =>
      rw [publish_decoded dupMsg regInfra blobFail st hdec hp]
      cases hr : store_package_info regInfra dupMsg st.reg
          (PackageInfo.from_metadata m (sha256Hex cb)) with
      | ok reg2 =>
        cases blobFail with
        | none =>
          rw [publishCore_regOk hr]
          exact ⟨Or.inr ⟨true, m.name, m.vers, cb, rfl⟩, Or.inr (Or.inl rfl)⟩
        | some bm =>
          rw [publishCore_blobFail_regOk hr]
          exact ⟨Or.inr ⟨true, m.name, m.vers, cb, rfl⟩, Or.inl ⟨expectCrateMsg, rfl⟩⟩
      | error msg =>
        cases blobFail with
        | none =>
          rw [publishCore_regErr hr]
          exact ⟨Or.inr ⟨false, m.name, m.vers, cb, rfl⟩, Or.inr (Or.inr ⟨msg, rfl⟩)⟩
        | some bm =>
          rw [publishCore_blobFail_regErr hr]
          exact ⟨Or.inr ⟨false, m.name, m.vers, cb, rfl⟩, Or.inl ⟨expectCrateMsg, rfl⟩⟩

/-! ## Claims C1, C3, C7 -/

/-- Claim C1, counterexample.  Against "whenever the registration write
fails, the pipeline aborts before the blob write": republishing
("demo", "1.0.0") over a store that already holds that key makes the
registration write fail, yet the blob write is still invoked and the
archive bytes are persisted in the blob store. -/
theorem C1_blob_write_after_failed_registration :
    (publish_crate demoParse condFailedMsg none none demoOccupied demoBody).trace =
      [Event.regWrite false, Event.blobWrite "demo" ⟨1, 0, 0⟩ [97, 98, 99]] ∧
    (publish_crate demoParse condFailedMsg none none demoOccupied demoBody).state.blob =
      [(("demo", "1.0.0"), [97, 98, 99])] :=
  ⟨rfl, rfl⟩

/-- Claim C1 (amended): for every request that decodes and parses, the
registration write is strictly ordered before the blob write (never
reversed, never parallelized), but the blob write is invoked regardless
of the registration outcome: the trace of every such run is exactly a
registration write followed by the blob write of the submitted bytes. -/
theorem C1_registration_before_blob_write
    (parse : List Nat → Option Metadata) (dupMsg : String)
    (regInfra blobFail : Option String) (st : SystemState)
    (body mb cb : List Nat) (m : Metadata)
    (hdec : decodeFrame body = some (mb, cb)) (hp : parse mb = some m) :
    ∃ b, (publish_crate parse dupMsg regInfra blobFail st body).trace =
      [Event.regWrite b, Event.blobWrite m.name m.vers cb] := by
  rw [publish_decoded dupMsg regInfra blobFail st hdec hp]
  cases hr : store_package_info regInfra dupMsg st.reg
      (PackageInfo.from_metadata m (sha256Hex cb)) with
  | ok reg2 =>
    cases blobFail with
    | none => rw [publishCore_regOk hr]; exact ⟨true, rfl⟩
    | some bm => rw [publishCore_blobFail_regOk hr]; exact ⟨true, rfl⟩
  | error msg =>
    cases blobFail with
    | none => rw [publishCore_regErr hr]; exact ⟨false, rfl⟩
    | some bm => rw [publishCore_blobFail_regErr hr]; exact ⟨false, rfl⟩

/-- Claim C1 witness: the ordering theorem applied to a concrete fresh
publish of ("demo", "1.0.0") with archive bytes "abc". -/
theorem C1_registration_before_blob_write_witness :
    ∃ b, (publish_crate demoParse condFailedMsg none none demoEmpty demoBody).trace =
      [Event.regWrite b, Event.blobWrite "demo" ⟨1, 0, 0⟩ [97, 98, 99]] :=
  C1_registration_before_blob_write demoParse condFailedMsg none none demoEmpty
    demoBody [] [97, 98, 99] ⟨"demo", ⟨1, 0, 0⟩⟩ rfl rfl

/-- Claim C3, counterexample.  Against "the frame decode fails with the
MalformedFrame error kind (a reported error, not a crash)": on the
2-byte body [1, 0] (fewer than 4 bytes remain for the first length
field) the handler crashes — the read error is `.unwrap()`ed, so the
outcome is a process panic, not a reported error response; no store is
touched. -/
theorem C3_truncated_frame_crashes :
    decodeFrame [1, 0] = none ∧
    publish_crate demoParse condFailedMsg none none demoEmpty [1, 0] =
      ⟨Outcome.crash unwrapMsg, demoEmpty, []⟩ :=
  ⟨rfl, rfl⟩

/-- Claim C3 (amended): for every request body in which fewer than 4
bytes remain when a length field is to be read, or in which a declared
length exceeds the bytes remaining (that is, the frame decode fails),
the handler crashes by panicking on the unwrapped read error — no
MalformedFrame error value is reported — and no registration-store or
blob-store write is performed: the state is unchanged and the trace is
empty. -/
theorem C3_malformed_frame_no_writes
    (parse : List Nat → Option Metadata) (dupMsg : String)
    (regInfra blobFail : Option String) (st : SystemState) (body : List Nat)
    (h : decodeFrame body = none) :
    publish_crate parse dupMsg regInfra blobFail st body =
      ⟨Outcome.crash unwrapMsg, st, []⟩ :=
  publish_decode_none parse dupMsg regInfra blobFail st h

/-- Claim C3 witness: the amended theorem applied to the body [255],
whose declared length field is itself truncated. -/
theorem C3_malformed_frame_no_writes_witness :
    publish_crate demoParse condFailedMsg none none demoOccupied [255] =
      ⟨Outcome.crash unwrapMsg, demoOccupied, []⟩ :=
  C3_malformed_frame_no_writes demoParse condFailedMsg none none demoOccupied [255] rfl

/-- Claim C7: for every request whose frame decodes and whose metadata
parses, the blob-store write is invoked with the submitted archive bytes
regardless of the registration outcome (the hypotheses place no
constraint on the store contents or on `regInfra`), and when the blob
backend is up the submitted bytes are persisted under (name, version) —
in particular a duplicate publish still writes the new archive bytes. -/
theorem C7_blob_write_unconditional
    (parse : List Nat → Option Metadata) (dupMsg : String)
    (regInfra blobFail : Option String) (st : SystemState)
    (body mb cb : List Nat) (m : Metadata)
    (hdec : decodeFrame body = some (mb, cb)) (hp : parse mb = some m) :
    Event.blobWrite m.name m.vers cb ∈
      (publish_crate parse dupMsg regInfra blobFail st body).trace ∧
    (blobFail = none → ((m.name, m.vers.render), cb) ∈
      (publish_crate parse dupMsg regInfra blobFail st body).state.blob) := by
  rw [publish_decoded dupMsg regInfra blobFail st hdec hp]
  cases hr : store_package_info regInfra dupMsg st.reg
      (PackageInfo.from_metadata m (sha256Hex cb)) with
  | ok reg2 =>
    cases blobFail with
    | none => rw [publishCore_regOk hr]; exact ⟨by simp, fun _ => by simp⟩
    | some bm =>
      rw [publishCore_blobFail_regOk hr]
      exact ⟨by simp, fun hc => by cases hc⟩
  | error msg =>
    cases blobFail with
    | none => rw [publishCore_regErr hr]; exact ⟨by simp, fun _ => by simp⟩
    | some bm =>
      rw [publishCore_blobFail_regErr hr]
      exact ⟨by simp, fun hc => by cases hc⟩

/-- Claim C7 witness: a duplicate publish of ("demo", "1.0.0") — the key
is already occupied, so the registration write fails — still records the
blob write of the new bytes and persists them. -/
theorem C7_blob_write_unconditional_witness :
    Event.blobWrite "demo" ⟨1, 0, 0⟩ [97, 98, 99] ∈
      (publish_crate demoParse condFailedMsg none none demoOccupied demoBody).trace ∧
    ((none : Option String) = none → (("demo", "1.0.0"), [97, 98, 99]) ∈
      (publish_crate demoParse condFailedMsg none none demoOccupied demoBody).state.blob) :=
  C7_blob_write_unconditional demoParse condFailedMsg none none demoOccupied
    demoBody [] [97, 98, 99] ⟨"demo", ⟨1, 0, 0⟩⟩ rfl rfl

/-! ## Claims C4, C5, C6 -/

/-- Claim C4, counterexample.  Against "the response status is in the
500 class and the caller-visible detail is opaque": when the
registration write fails with an infrastructure error, the publish
handler answers 400 (not 500) and places the store driver's error text
verbatim in the response detail. -/
theorem C4_infra_error_leaks_detail_as_400 :
    (publish_crate demoParse condFailedMsg
        (some "dispatch failure: io error: connection refused") none
        demoEmpty demoBody).outcome =
      Outcome.ok (400, PublishResponse.PublishFailure
        "dispatch failure: io error: connection refused") :=
  rfl

/-- Claim C4 (amended): the publish handler maps every registration
infrastructure failure to status 400 with the driver's error text
verbatim as the detail; the `AppError` responder — which would surface
such an error as 500 with the opaque detail "unexpected error", keeping
the original message only for the operator log — is not used by the
publish handler. -/
theorem C4_infra_error_mapping
    (parse : List Nat → Option Metadata) (dupMsg msg : String)
    (st : SystemState) (body mb cb : List Nat) (m : Metadata)
    (hdec : decodeFrame body = some (mb, cb)) (hp : parse mb = some m) :
    (publish_crate parse dupMsg (some msg) none st body).outcome =
      Outcome.ok (400, PublishResponse.PublishFailure msg) ∧
    (AppError.fromSdkError msg).into_response =
      (500, Json.obj [("errors",
        Json.arr [Json.obj [("detail", Json.str "unexpected error")]])]) := by
  constructor
  · have hr : store_package_info (some msg) dupMsg st.reg
        (PackageInfo.from_metadata m (sha256Hex cb)) = Except.error msg := rfl
    rw [publish_decoded dupMsg (some msg) none st hdec hp, publishCore_regErr hr]
  · rfl

/-- Claim C4 witness: the mapping theorem at a concrete run with a
failing registration store. -/
theorem C4_infra_error_mapping_witness :
    (publish_crate demoParse condFailedMsg (some "service unavailable") none
        demoEmpty demoBody).outcome =
      Outcome.ok (400, PublishResponse.PublishFailure "service unavailable") ∧
    (AppError.fromSdkError "service unavailable").into_response =
      (500, Json.obj [("errors",
        Json.arr [Json.obj [("detail", Json.str "unexpected error")]])]) :=
  C4_infra_error_mapping demoParse condFailedMsg "service unavailable"
    demoEmpty demoBody [] [97, 98, 99] ⟨"demo", ⟨1, 0, 0⟩⟩ rfl rfl

/-- Claim C5, counterexample.  Against "the pipeline does not panic: it
returns a server-error response": when the blob write fails after a
successful registration, the handler hits the
`.expect("to be able to store crate")` and crashes instead of returning
a response; the metadata record does remain persisted. -/
theorem C5_blob_failure_panics :
    publish_crate demoParse condFailedMsg none (some "S3 put object failed")
        demoEmpty demoBody =
      ⟨Outcome.crash expectCrateMsg,
       ⟨[("demo", "1.0.0", demoRecord)], []⟩,
       [Event.regWrite true, Event.blobWrite "demo" ⟨1, 0, 0⟩ [97, 98, 99]]⟩ :=
  rfl

/-- Claim C5 (amended): when the blob-store write fails after a
successful registration, the pipeline terminates by panicking (the
`.expect` on the store result), not by returning a server-error
response; the already-persisted metadata record remains in the
registration store and the blob store is unchanged. -/
theorem C5_blob_failure_crashes_record_remains
    (parse : List Nat → Option Metadata) (dupMsg bm : String)
    (st : SystemState) (body mb cb : List Nat) (m : Metadata)
    (hdec : decodeFrame body = some (mb, cb)) (hp : parse mb = some m)
    (hfree : regKeyOccupied st.reg m.name m.vers.render = false) :
    publish_crate parse dupMsg none (some bm) st body =
      ⟨Outcome.crash expectCrateMsg,
       ⟨(m.name, m.vers.render, PackageInfo.from_metadata m (sha256Hex cb)) :: st.reg, st.blob⟩,
       [Event.regWrite true, Event.blobWrite m.name m.vers cb]⟩ := by
  rw [publish_decoded dupMsg none (some bm) st hdec hp]
  have hr : store_package_info none dupMsg st.reg
      (PackageInfo.from_metadata m (sha256Hex cb)) =
      Except.ok ((m.name, m.vers.render,
        PackageInfo.from_metadata m (sha256Hex cb)) :: st.reg) := by
    simp [store_package_info, putItemIfAbsent, PackageInfo.from_metadata, hfree]
  rw [publishCore_blobFail_regOk hr]

/-- Claim C5 witness: the amended theorem at a concrete fresh publish
with a failing blob backend. -/
theorem C5_blob_failure_crashes_record_remains_witness :
    publish_crate demoParse condFailedMsg none (some "S3 unreachable")
        demoEmpty demoBody =
      ⟨Outcome.crash expectCrateMsg,
       ⟨[("demo", "1.0.0",
          PackageInfo.from_metadata ⟨"demo", ⟨1, 0, 0⟩⟩ (sha256Hex [97, 98, 99]))], []⟩,
       [Event.regWrite true, Event.blobWrite "demo" ⟨1, 0, 0⟩ [97, 98, 99]]⟩ :=
  C5_blob_failure_crashes_record_remains demoParse condFailedMsg "S3 unreachable"
    demoEmpty demoBody [] [97, 98, 99] ⟨"demo", ⟨1, 0, 0⟩⟩ rfl rfl rfl

/-- Claim C6, counterexample.  Against "the detail string references
'already exists'": republishing the already-registered ("demo", "1.0.0")
does yield status 400 and no second record, but the detail is the store
driver's conditional-check error text, which does not contain
"already exists" — the `DuplicateCrateVersion` taxonomy message is never
constructed by the publish handler. -/
theorem C6_republish_detail_not_already_exists :
    (publish_crate demoParse condFailedMsg none none demoOccupied demoBody).outcome =
      Outcome.ok (400, PublishResponse.PublishFailure condFailedMsg) ∧
    strContains condFailedMsg "already exists" = false ∧
    (publish_crate demoParse condFailedMsg none none demoOccupied demoBody).state.reg =
      [("demo", "1.0.0", demoRecord)] :=
  ⟨rfl, by decide, rfl⟩

/-- Claim C6 (amended): republishing an already-registered
(name, version) pair yields a failure response with status class 400 and
leaves the registration store unchanged (no second record, the existing
one untouched), but its detail is the store driver's conditional-check
error text verbatim, not a message referencing "already exists"; the
taxonomy's `DuplicateCrateVersion` display does contain "already
exists" but is not produced by the publish handler. -/
theorem C6_republish_rejected_store_unchanged
    (parse : List Nat → Option Metadata) (dupMsg : String)
    (st : SystemState) (body mb cb : List Nat) (m : Metadata)
    (hdec : decodeFrame body = some (mb, cb)) (hp : parse mb = some m)
    (hocc : regKeyOccupied st.reg m.name m.vers.render = true) :
    (publish_crate parse dupMsg none none st body).outcome =
      Outcome.ok (400, PublishResponse.PublishFailure dupMsg) ∧
    (publish_crate parse dupMsg none none st body).state.reg = st.reg ∧
    strContains (AppError.DuplicateCrateVersion "demo" ⟨1, 0, 0⟩).toMessage
      "already exists" = true := by
  have hr : store_package_info none dupMsg st.reg
      (PackageInfo.from_metadata m (sha256Hex cb)) = Except.error dupMsg := by
    simp [store_package_info, putItemIfAbsent, PackageInfo.from_metadata, hocc]
  rw [publish_decoded dupMsg none none st hdec hp, publishCore_regErr hr]
  exact ⟨rfl, rfl, by decide⟩

/-- Claim C6 witness: the amended theorem at the concrete republish of
("demo", "1.0.0"). -/
theorem C6_republish_rejected_store_unchanged_witness :
    (publish_crate demoParse condFailedMsg none none demoOccupied demoBody).outcome =
      Outcome.ok (400, PublishResponse.PublishFailure condFailedMsg) ∧
    (publish_crate demoParse condFailedMsg none none demoOccupied demoBody).state.reg =
      demoOccupied.reg ∧
    strContains (AppError.DuplicateCrateVersion "demo" ⟨1, 0, 0⟩).toMessage
      "already exists" = true :=
  C6_republish_rejected_store_unchanged demoParse condFailedMsg demoOccupied
    demoBody [] [97, 98, 99] ⟨"demo", ⟨1, 0, 0⟩⟩ rfl rfl rfl

/-! ## Claim C2 -/

/-- Once the key is occupied, a sequence of further attempts on the same
key yields no success and leaves the store as the failures find it. -/
lemma runAttempts_occupied (d nm vs : String) :
    ∀ (attempts : List PackageInfo),
      (∀ i ∈ attempts, i.name = nm ∧ i.vers.render = vs) →
      ∀ store : RegStore, regKeyOccupied store nm vs = true →
      (runAttempts d store attempts).2 = 0 := by
  intro attempts
  induction attempts with
  | nil => intro _ store _; rfl
  | cons i rest ih =>
    intro hall store hocc
    have hi := hall i (by simp)
    have herr : store_package_info none d store i = Except.error d := by
      simp [store_package_info, putItemIfAbsent, hi.1, hi.2, hocc]
    simp only [runAttempts, herr]
    exact ih (fun j hj => hall j (by simp [hj])) store hocc

/-- Claim C2: the registration write is a single atomic
insert-if-absent keyed by (name, version): (i) it succeeds if and only
if no record currently exists for that exact key; (ii) when the key is
occupied it rejects with the driver's error, not an overwrite; (iii) a
successful insert preserves the at-most-one-record-per-key invariant;
(iv) any sequential order of N ≥ 1 attempts with identical
(name, version) — to which every concurrent execution is equivalent,
the write being one atomic store operation — has exactly one success;
(v) the pipeline performs at most one registration-store operation per
request (no separate existence-check before the write). -/
theorem C2_atomic_conditional_registration :
    (∀ (d : String) (store : RegStore) (info : PackageInfo),
      (∃ r, store_package_info none d store info = Except.ok r) ↔
        regKeyOccupied store info.name info.vers.render = false) ∧
    (∀ (d : String) (store : RegStore) (info : PackageInfo),
      regKeyOccupied store info.name info.vers.render = true →
        store_package_info none d store info = Except.error d) ∧
    (∀ (d : String) (store : RegStore) (info : PackageInfo) (r : RegStore),
      store_package_info none d store info = Except.ok r →
        noDupKeys store → noDupKeys r) ∧
    (∀ (d : String) (store : RegStore) (attempts : List PackageInfo) (nm vs : String),
      attempts ≠ [] →
      (∀ i ∈ attempts, i.name = nm ∧ i.vers.render = vs) →
      regKeyOccupied store nm vs = false →
      (runAttempts d store attempts).2 = 1) ∧
    (∀ (parse : List Nat → Option Metadata) (d : String)
        (regInfra blobFail : Option String) (st : SystemState) (body : List Nat),
      ((publish_crate parse d regInfra blobFail st body).trace.countP isRegWrite) ≤ 1) := by
  refine ⟨?_, ?_, ?_, ?_, ?_⟩
  · intro d store info
    cases h : regKeyOccupied store info.name info.vers.render with
    | false => simp [store_package_info, putItemIfAbsent, h]
    | true => simp [store_package_info, putItemIfAbsent, h]
  · intro d store info h
    simp [store_package_info, putItemIfAbsent, h]
  · intro d store info r hok hnd
    cases hocc : regKeyOccupied store info.name info.vers.render with
    | true => simp [store_package_info, putItemIfAbsent, hocc] at hok
    | false =>
      simp [store_package_info, putItemIfAbsent, hocc] at hok
      subst hok
      refine List.Pairwise.cons ?_ hnd
      simp [regKeyOccupied] at hocc
      intro y hy hcontra
      obtain ⟨a, a1, b⟩ := y
      exact hocc a a1 b hy hcontra.1.symm hcontra.2.symm
  · intro d store attempts nm vs hne hall hfree
    cases attempts with
    | nil => exact absurd rfl hne
    | cons i rest =>
      have hi := hall i (by simp)
      have hok : store_package_info none d store i =
          Except.ok ((i.name, i.vers.render, i) :: store) := by
        simp [store_package_info, putItemIfAbsent, hi.1, hi.2, hfree]
      simp only [runAttempts, hok]
      have hocc2 : regKeyOccupied ((i.name, i.vers.render, i) :: store) nm vs = true := by
        simp [regKeyOccupied, hi.1, hi.2]
      have hz := runAttempts_occupied d nm vs rest
        (fun j hj => hall j (by simp [hj]))
        ((i.name, i.vers.render, i) :: store) hocc2
      omega
  · intro parse d regInfra blobFail st body
    rcases (publish_run_shape parse d regInfra blobFail st body).1 with h | ⟨b, n, v, cb2, h⟩
    · rw [h]; simp
    · rw [h]; simp [isRegWrite]

/-- Claim C2 witness: three attempts on the empty store with the
identical key ("demo", "1.0.0") produce exactly one success. -/
theorem C2_atomic_conditional_registration_witness :
    (runAttempts condFailedMsg [] [demoRecord, demoRecord, demoRecord]).2 = 1 :=
  C2_atomic_conditional_registration.2.2.2.1 condFailedMsg []
    [demoRecord, demoRecord, demoRecord] "demo" "1.0.0"
    (by decide) (by decide) (by decide)

/-! ## Claim C8 -/

lemma hexDigitChar_isHex : ∀ n, n < 16 → isHexDigit (hexDigitChar n) = true := by decide

lemma hashToBytes_length (H : Hash8) : (hashToBytes H).length = 32 := by
  simp [hashToBytes, toBE4]

lemma hashToBytes_lt (H : Hash8) : ∀ b ∈ hashToBytes H, b < 256 := by
  intro b hb
  simp [hashToBytes, toBE4] at hb
  omega

lemma hexChars_length : ∀ bs : List Nat,
    ((bs.map byteToHexChars).flatten).length = 2 * bs.length := by
  intro bs
  induction bs with
  | nil => rfl
  | cons b rest ih =>
    simp only [List.map_cons, List.flatten_cons, List.length_append, byteToHexChars,
      List.length_cons, List.length_nil, List.length_cons, ih]
    omega

lemma hexChars_all : ∀ bs : List Nat, (∀ b ∈ bs, b < 256) →
    ((bs.map byteToHexChars).flatten).all isHexDigit = true := by
  intro bs
  induction bs with
  | nil => intro _; rfl
  | cons b rest ih =>
    intro h
    have hb := h b (by simp)
    have h1 : b / 16 < 16 := Nat.div_lt_of_lt_mul (by omega)
    have h2 : b % 16 < 16 := Nat.mod_lt _ (by norm_num)
    simp only [List.map_cons, List.flatten_cons, List.all_append, Bool.and_eq_true]
    exact ⟨by simp [byteToHexChars, hexDigitChar_isHex _ h1, hexDigitChar_isHex _ h2],
      ih (fun x hx => h x (by simp [hx]))⟩

/-- Claim C8: the checksum attached to the persisted record is the
SHA-256 digest of the archive bytes rendered as lowercase hex: (i) the
empty buffer is valid input and yields the digest of empty input;
(ii) for archive bytes "abc" it equals the well-known SHA-256 hex digest
of "abc"; (iii) for every byte buffer the rendering is 64 lowercase hex
characters (a 256-bit digest); (iv) the record persisted by a successful
publish carries exactly `sha256Hex` of the submitted archive bytes.
Determinism holds by construction: `sha256Hex` is a pure function of the
byte list. -/
theorem C8_checksum_is_sha256_lowercase_hex :
    sha256Hex [] = "e3b0c44298fc1c149afbf4c8996fb92427ae41e4649b934ca495991b7852b855" ∧
    sha256Hex [97, 98, 99] =
      "ba7816bf8f01cfea414140de5dae2223b00361a396177a9cb410ff61f20015ad" ∧
    (∀ bs : List Nat, isLowerHexString (sha256Hex bs) = true) ∧
    (∀ (parse : List Nat → Option Metadata) (d : String) (st : SystemState)
        (body mb cb : List Nat) (m : Metadata),
      decodeFrame body = some (mb, cb) → parse mb = some m →
      regKeyOccupied st.reg m.name m.vers.render = false →
      (publish_crate parse d none none st body).state.reg =
        (m.name, m.vers.render, PackageInfo.from_metadata m (sha256Hex cb)) :: st.reg) := by
  refine ⟨rfl, rfl, ?_, ?_⟩
  · intro bs
    unfold sha256Hex sha256
    generalize (chunks16 (bytesToWords (padMessage bs))).foldl compressChunk sha256H0 = H
    have hlen : (((hashToBytes H).map byteToHexChars).flatten).length = 64 := by
      rw [hexChars_length, hashToBytes_length]
    have hall := hexChars_all (hashToBytes H) (hashToBytes_lt H)
    show ((((hashToBytes H).map byteToHexChars).flatten).length == 64 &&
      (((hashToBytes H).map byteToHexChars).flatten).all isHexDigit) = true
    simp [hlen, hall]
  · intro parse d st body mb cb m hdec hp hfree
    have hr : store_package_info none d st.reg
        (PackageInfo.from_metadata m (sha256Hex cb)) =
        Except.ok ((m.name, m.vers.render,
          PackageInfo.from_metadata m (sha256Hex cb)) :: st.reg) := by
      simp [store_package_info, putItemIfAbsent, PackageInfo.from_metadata, hfree]
    rw [publish_decoded d none none st hdec hp, publishCore_regOk hr]

/-- Claim C8 witness: the persisted-record conjunct applied to the
concrete scenario — publishing ("demo", "1.0.0") with archive bytes
"abc" stores a record whose checksum is the SHA-256 digest of "abc". -/
theorem C8_checksum_is_sha256_lowercase_hex_witness :
    (publish_crate demoParse condFailedMsg none none demoEmpty demoBody).state.reg =
      [("demo", "1.0.0",
        PackageInfo.from_metadata ⟨"demo", ⟨1, 0, 0⟩⟩ (sha256Hex [97, 98, 99]))] :=
  C8_checksum_is_sha256_lowercase_hex.2.2.2 demoParse condFailedMsg demoEmpty
    demoBody [] [97, 98, 99] ⟨"demo", ⟨1, 0, 0⟩⟩ rfl rfl rfl

/-! ## Claims C9, C10 -/

/-- Claim C9, counterexample.  Against "every other or internal error →
500": an infrastructure failure of the registration write — not a
duplicate, not a missing entity — is answered by the publish handler
with status 400, not 500. -/
theorem C9_internal_error_gets_400 :
    (publish_crate demoParse condFailedMsg
        (some "timed out connecting to the registration store") none
        demoEmpty demoBody).outcome =
      Outcome.ok (400, PublishResponse.PublishFailure
        "timed out connecting to the registration store") :=
  rfl

/-- Claim C9 (amended): the `AppError` responder maps
`NonExistentPackageInfo` and `NonExistentCrateVersion` to 404,
`DuplicateCrateVersion` to 400 and `Anyhow`/`Other` (internal) to 500,
and a successful publish answers 200 — but the publish handler itself
maps every registration-write failure, infrastructure errors included,
to 400 rather than 500. -/
theorem C9_status_mapping
    : (∀ n, (AppError.NonExistentPackageInfo n).into_response.1 = 404) ∧
      (∀ c v, (AppError.NonExistentCrateVersion c v).into_response.1 = 404) ∧
      (∀ c v, (AppError.DuplicateCrateVersion c v).into_response.1 = 400) ∧
      (∀ msg, (AppError.Anyhow msg).into_response.1 = 500) ∧
      (∀ msg, (AppError.Other msg).into_response.1 = 500) ∧
      (∀ (parse : List Nat → Option Metadata) (d : String) (st : SystemState)
          (body mb cb : List Nat) (m : Metadata),
        decodeFrame body = some (mb, cb) → parse mb = some m →
        regKeyOccupied st.reg m.name m.vers.render = false →
        (publish_crate parse d none none st body).outcome =
          Outcome.ok (200, PublishResponse.PublishSuccess [])) ∧
      (∀ (parse : List Nat → Option Metadata) (d msg : String) (st : SystemState)
          (body mb cb : List Nat) (m : Metadata),
        decodeFrame body = some (mb, cb) → parse mb = some m →
        (publish_crate parse d (some msg) none st body).outcome =
          Outcome.ok (400, PublishResponse.PublishFailure msg)) := by
  refine ⟨fun _ => rfl, fun _ _ => rfl, fun _ _ => rfl, fun _ => rfl, fun _ => rfl, ?_, ?_⟩
  · intro parse d st body mb cb m hdec hp hfree
    have hr : store_package_info none d st.reg
        (PackageInfo.from_metadata m (sha256Hex cb)) =
        Except.ok ((m.name, m.vers.render,
          PackageInfo.from_metadata m (sha256Hex cb)) :: st.reg) := by
      simp [store_package_info, putItemIfAbsent, PackageInfo.from_metadata, hfree]
    rw [publish_decoded d none none st hdec hp, publishCore_regOk hr]
  · intro parse d msg st body mb cb m hdec hp
    have hr : store_package_info (some msg) d st.reg
        (PackageInfo.from_metadata m (sha256Hex cb)) = Except.error msg := rfl
    rw [publish_decoded d (some msg) none st hdec hp, publishCore_regErr hr]

/-- Claim C9 witness: the success part of the mapping at a concrete
fresh publish, which answers 200. -/
theorem C9_status_mapping_witness :
    (publish_crate demoParse condFailedMsg none none demoEmpty demoBody).outcome =
      Outcome.ok (200, PublishResponse.PublishSuccess []) :=
  C9_status_mapping.2.2.2.2.2.1 demoParse condFailedMsg demoEmpty demoBody
    [] [97, 98, 99] ⟨"demo", ⟨1, 0, 0⟩⟩ rfl rfl rfl

/-- Claim C10: (i) every success response produced by the publish
handler carries an empty warnings list; (ii) a failure response
serializes as the object with the single field "detail"; (iii) at the
error-mapping boundary the `AppError` responder wraps the detail as
the object with field "errors" holding a one-element array of
"detail" objects. -/
theorem C10_response_shapes :
    (∀ (parse : List Nat → Option Metadata) (d : String)
        (regInfra blobFail : Option String) (st : SystemState) (body : List Nat)
        (s : Nat) (ws : List PublishWarning),
      (publish_crate parse d regInfra blobFail st body).outcome =
        Outcome.ok (s, PublishResponse.PublishSuccess ws) → ws = []) ∧
    (∀ d, (PublishResponse.PublishFailure d).toJson =
      Json.obj [("detail", Json.str d)]) ∧
    (∀ e : AppError, e.into_response.2 =
      Json.obj [("errors", Json.arr [Json.obj [("detail", Json.str e.toMessage)]])]) := by
  refine ⟨?_, fun _ => rfl, fun e => rfl⟩
  intro parse d regInfra blobFail st body s ws h
  rcases (publish_run_shape parse d regInfra blobFail st body).2 with ⟨msg, ho⟩ | ho | ⟨dd, ho⟩
  · rw [h] at ho; cases ho
  · rw [h] at ho
    simp only [Outcome.ok.injEq, Prod.mk.injEq, PublishResponse.PublishSuccess.injEq] at ho
    exact ho.2
  · rw [h] at ho
    simp at ho

/-- Claim C10 witness: the empty-warnings part applied to the concrete
successful publish. -/
theorem C10_response_shapes_witness : ([] : List PublishWarning) = [] :=
  C10_response_shapes.1 demoParse condFailedMsg none none demoEmpty demoBody
    200 [] rfl

end Raktar
